import Mathlib

/-!
Shallow embedding of `ecotide_backend/sustainability_score.py`
(class `SustainabilityScorer`), restricted to the scoring engine.

Modelling conventions:
* Python `str` is Lean `String`; `str.lower()` is modelled per character by
  the ASCII lowering `Char.toLower` (the keyword tables and the stripping
  regex are ASCII-only, so non-ASCII case mapping is irrelevant to every
  property treated here).
* Python `needle in hay` (substring containment) is `strIn needle hay`.
* Python floats are modelled as exact rationals.  Where the spec demands
  bit-exact decimal rendering of float results (the CO2 string), literals
  and products are rounded to IEEE-754 binary64 values by `toDouble`
  (round to nearest, ties to even), and `"%.1f"` formatting rounds the
  exact value of that double half-to-even, as CPython does.  In the
  rule-based grader and the confidence computation, floats are kept as the
  exact decimal rationals: every comparison these values meet has slack
  far above one ulp except at exact threshold hits (pre-multiplier scores
  are multiples of 10; the only exact hits, 100 * 0.8 = 80 and
  50 * 0.9 = 45, land on the same side for the decimal rational and for
  the binary64 computation, whose error there is upward).
* Fallible Python code returns `Option`/`Except`: a `KeyError` on a dict
  access is `none`, the opaque ML artifact (vectorizer + classifier +
  label decoder) is an uninterpreted `String → Except Unit String`, and
  `try/except` is a `match` on the fallible value.
* `datetime.now().isoformat()` and `random.choice` are nondeterministic;
  they are passed in as parameters `now` and `choice`.
* The `categories_processed` statistics set is not modelled: no claim
  mentions it and it feeds back into no computation.
-/

namespace EcoTide

/-! ### Character and string primitives -/

/-- Lower-casing of a whole string, per character (models `str.lower()`). -/
def pyLower (s : String) : String :=
  String.mk (s.toList.map Char.toLower)

/-- The characters matched by `\s` in a CPython `re` pattern over `str`
(Unicode whitespace). -/
def pySpaceChars : List Char :=
  [' ', '\t', '\n', '\x0b', '\x0c', '\r',
   '\u001c', '\u001d', '\u001e', '\u001f', '\u0085', ' ',
   ' ', ' ', ' ', ' ', ' ', ' ', ' ',
   ' ', ' ', ' ', ' ', ' ',
   ' ', ' ', ' ', ' ', '　']

/-- Is this character whitespace in the sense of Python's `\s` / `str.split()`? -/
def isPySpace (c : Char) : Bool :=
  pySpaceChars.contains c

/-- Does `n` occur at the head of `h`? (list-level helper for substring tests) -/
def headMatch : List Char → List Char → Bool
  | [], _ => true
  | _ :: _, [] => false
  | a :: as, b :: bs => a == b && headMatch as bs

/-- Does `n` occur contiguously anywhere in `h`? -/
def subOccurs (n : List Char) : List Char → Bool
  | [] => headMatch n []
  | c :: t => headMatch n (c :: t) || subOccurs n t

/-- Python's `needle in hay` on strings. -/
def strIn (needle hay : String) : Bool :=
  subOccurs needle.toList hay.toList

/-- Python's `str.split()` with no argument: split on whitespace runs,
dropping empty pieces. -/
def pySplit (s : String) : List String :=
  (s.split (fun c => isPySpace c)).filter (fun w => w != "")

/-! ### IEEE-754 binary64 arithmetic on exact rationals (for the CO2 string) -/

/-- Round a rational to an integer, ties to even. -/
def rhe (x : ℚ) : ℤ :=
  let f := ⌊x⌋
  if x - f < 1/2 then f
  else if (1 : ℚ)/2 < x - f then f + 1
  else if f % 2 = 0 then f else f + 1

/-- Floor of the base-2 logarithm of `q`, correct for `q ∈ [2^-20, 2^39)`
(every float this file rounds lies well inside that range). -/
def floorLog2 (q : ℚ) : ℤ :=
  (List.range 60).foldl
    (fun e i => if (2 : ℚ) ^ i ≤ q * 2 ^ 20 then (i : ℤ) - 20 else e) (-20)

/-- Round a rational to the nearest IEEE-754 binary64 value (ties to even),
returned as the exact rational that the double denotes. -/
def toDouble (q : ℚ) : ℚ :=
  if q.num = 0 then 0
  else
    let s : ℤ := 52 - floorLog2 |q|
    (rhe (q * 2 ^ s) : ℚ) / 2 ^ s

/-- Binary64 multiplication: exact product, correctly rounded. -/
def pyMul (a b : ℚ) : ℚ :=
  toDouble (a * b)

/-- CPython `f"{x:.1f}"` for a nonnegative double `x` held as an exact
rational: round the exact value to one decimal, ties to even. -/
def fmt1 (q : ℚ) : String :=
  let n := (rhe (q * 10)).toNat
  Nat.repr (n / 10) ++ "." ++ Nat.repr (n % 10)

/-! ### Lexicon (`SustainabilityScorer.__init__`) -/

/-- The `excellent` tier keyword list. -/
def excellent_keywords : List String :=
  ["organic", "sustainable", "eco-friendly", "recycled", "bamboo", "hemp",
   "fair trade", "carbon neutral", "biodegradable", "renewable", "solar",
   "wind power", "upcycled", "zero waste", "compostable"]

/-- The `good` tier keyword list. -/
def good_keywords : List String :=
  ["recyclable", "energy efficient", "minimal packaging", "local", "natural",
   "reusable", "durable", "long-lasting", "refillable", "plant-based"]

/-- The `average` tier keyword list. -/
def average_keywords : List String :=
  ["standard", "conventional", "regular", "basic", "economy"]

/-- The `poor` tier keyword list. -/
def poor_keywords : List String :=
  ["disposable", "single-use", "plastic", "non-recyclable", "petroleum",
   "synthetic", "chemical", "artificial", "fast fashion", "cheap"]

/-- The `very_poor` tier keyword list. -/
def very_poor_keywords : List String :=
  ["toxic", "harmful", "wasteful", "polluting", "destructive",
   "non-biodegradable", "excessive packaging", "planned obsolescence"]

/-- `self.sustainability_keywords`: tier name to keyword list, in
declaration order. -/
def sustainability_keywords : List (String × List String) :=
  [("excellent", excellent_keywords),
   ("good", good_keywords),
   ("average", average_keywords),
   ("poor", poor_keywords),
   ("very_poor", very_poor_keywords)]

/-- `self.category_multipliers` (rule-based grading), declaration order.
Float literals kept as exact decimal rationals (see file header). -/
def category_multipliers : List (String × ℚ) :=
  [("electronics", 8/10), ("clothing", 9/10), ("food", 11/10), ("home", 1),
   ("beauty", 95/100), ("toys", 85/100), ("books", 105/100), ("automotive", 7/10),
   ("garden", 12/10), ("health", 1)]

/-- The `electronics` entry of the `category_keywords` table in
`_detect_category`. -/
def electronics_keywords : List String :=
  ["phone", "laptop", "computer", "tablet", "headphones", "speaker", "tv", "camera"]

/-- The `clothing` entry of the `category_keywords` table in
`_detect_category`. -/
def clothing_keywords : List String :=
  ["shirt", "t-shirt", "dress", "pants", "jeans", "jacket", "shoes", "sneakers", "sweater"]

/-- The `category_keywords` table local to `_detect_category`, in
declaration order. -/
def category_keywords : List (String × List String) :=
  [("electronics", electronics_keywords),
   ("clothing", clothing_keywords),
   ("food", ["organic", "snack", "coffee", "tea", "chocolate", "nuts", "supplement", "vitamin"]),
   ("home", ["furniture", "chair", "table", "lamp", "decor", "pillow", "blanket", "storage"]),
   ("beauty", ["moisturizer", "shampoo", "soap", "lotion", "cream", "oil", "cosmetic", "perfume"]),
   ("toys", ["toy", "game", "puzzle", "doll", "action figure", "board game", "educational"]),
   ("books", ["book", "novel", "textbook", "journal", "notebook", "diary", "manual"]),
   ("automotive", ["car", "auto", "vehicle", "tire", "oil", "brake", "engine", "battery"]),
   ("garden", ["plant", "seed", "fertilizer", "tool", "garden", "lawn", "outdoor", "solar"]),
   ("health", ["medical", "health", "fitness", "exercise", "yoga", "protein", "supplement"])]

/-! ### Feature extraction (`prepare_features`) -/

/-- `prepare_features` on a single title:
`re.sub(r"[^a-zA-Z\s]", "", str(title).lower())`. -/
def prepare_features (product_title : String) : String :=
  String.mk ((product_title.toList.map Char.toLower).filter
    (fun c => c.isAlpha || isPySpace c))

/-! ### Category detection (`_detect_category`) -/

/-- `_detect_category`: first category (in declaration order) one of whose
keywords is a substring of the lower-cased title; `"other"` if none. -/
def _detect_category (title_lower : String) : String :=
  match category_keywords.find? (fun p => p.2.any (fun k => strIn k title_lower)) with
  | some p => p.1
  | none => "other"

/-! ### Rule-based grading (`_score_with_rules`) -/

/-- The `if/elif` chain in the keyword loop of `_score_with_rules`. -/
def tierDelta (tier : String) : ℤ :=
  if tier = "excellent" then 20
  else if tier = "good" then 10
  else if tier = "average" then 0
  else if tier = "poor" then -10
  else if tier = "very_poor" then -20
  else 0

/-- `_score_with_rules`: base 50, one delta per matching keyword, category
multiplier, fixed thresholds. -/
def _score_with_rules (product_title : String) : String :=
  let title_lower := pyLower product_title
  let score : ℤ := sustainability_keywords.foldl
    (fun s p => p.2.foldl
      (fun s2 k => if strIn k title_lower then s2 + tierDelta p.1 else s2) s) 50
  let category := _detect_category title_lower
  let final : ℚ :=
    match category_multipliers.lookup category with
    | some m => (score : ℚ) * m
    | none => (score : ℚ)
  if final ≥ 80 then "A"
  else if final ≥ 65 then "B"
  else if final ≥ 45 then "C"
  else if final ≥ 30 then "D"
  else "E"

/-! ### Model-based grading (`_score_with_model`) -/

/-- `_score_with_model`: the opaque artifact pipeline (vectorize, classify,
decode) applied to the prepared features; any exception in it falls back to
the rule-based grader for this call. -/
def _score_with_model (artifact : String → Except Unit String)
    (product_title : String) : String :=
  match artifact (prepare_features product_title) with
  | Except.ok grade => grade
  | Except.error _ => _score_with_rules product_title

/-! ### Signal enrichment -/

/-- `base_impact` dict local to `_estimate_co2_impact` (binary64 values of
the float literals). -/
def base_impact : List (String × ℚ) :=
  [("A", toDouble (12/10)), ("B", toDouble (5/2)), ("C", toDouble (24/5)),
   ("D", toDouble (81/10)), ("E", toDouble (25/2))]

/-- The `category_multipliers` dict local to `_estimate_co2_impact`
(binary64 values of the float literals). -/
def co2_category_multipliers : List (String × ℚ) :=
  [("electronics", toDouble 3), ("automotive", toDouble 5),
   ("clothing", toDouble (3/2)), ("food", toDouble (8/10)),
   ("home", toDouble 2), ("beauty", toDouble (12/10)),
   ("toys", toDouble (18/10)), ("books", toDouble (5/10)),
   ("garden", toDouble (9/10)), ("health", toDouble (11/10))]

/-- The literal suffix of the CO2 f-string in the source: `" kg CO"`
followed by U+00E2, U+201A, U+201A (the source file stores a
double-encoded subscript two). -/
def co2Unit : String :=
  " kg COâ‚‚"

/-- `_estimate_co2_impact`: base per grade times category multiplier,
formatted `"%.1f"` plus the unit suffix.  `base_impact[grade]` raises
`KeyError` (returns `none`) for a grade outside A..E. -/
def _estimate_co2_impact (product_title grade : String) : Option String :=
  match base_impact.lookup grade with
  | none => none
  | some b =>
    let category := _detect_category (pyLower product_title)
    let m := (co2_category_multipliers.lookup category).getD (toDouble 1)
    some (fmt1 (pyMul b m) ++ co2Unit)

/-- `recyclable_keywords` in `_assess_recyclability`. -/
def recyclable_keywords : List String :=
  ["metal", "aluminum", "steel", "glass", "paper", "cardboard", "recyclable"]

/-- `non_recyclable_keywords` in `_assess_recyclability`. -/
def non_recyclable_keywords : List String :=
  ["composite", "mixed materials", "laminated", "foam"]

/-- `recyclable_categories` in `_assess_recyclability`. -/
def recyclable_categories : List String :=
  ["electronics", "books", "home"]

/-- `_assess_recyclability`: recyclable keywords first, then
non-recyclable keywords, then the category default. -/
def _assess_recyclability (product_title : String) : Bool :=
  let title_lower := pyLower product_title
  if recyclable_keywords.any (fun k => strIn k title_lower) then true
  else if non_recyclable_keywords.any (fun k => strIn k title_lower) then false
  else recyclable_categories.contains (_detect_category title_lower)

/-- `renewable_keywords` in `_assess_renewable_materials`. -/
def renewable_keywords : List String :=
  ["bamboo", "hemp", "organic cotton", "wood", "cork", "renewable", "bio-based"]

/-- `_assess_renewable_materials`. -/
def _assess_renewable_materials (product_title : String) : Bool :=
  let title_lower := pyLower product_title
  renewable_keywords.any (fun k => strIn k title_lower)

/-- `_assess_packaging`. -/
def _assess_packaging (product_title : String) : String :=
  let title_lower := pyLower product_title
  if ["minimal packaging", "plastic-free", "zero waste"].any (fun w => strIn w title_lower) then
    "Excellent"
  else if ["recyclable packaging", "cardboard"].any (fun w => strIn w title_lower) then
    "Good"
  else if ["excessive packaging", "plastic packaging"].any (fun w => strIn w title_lower) then
    "Poor"
  else
    "Average"

/-- `_assess_supply_chain`. -/
def _assess_supply_chain (product_title : String) : String :=
  let title_lower := pyLower product_title
  if ["local", "fair trade", "ethical", "local sourced"].any (fun w => strIn w title_lower) then
    "Excellent"
  else if ["certified", "responsible"].any (fun w => strIn w title_lower) then
    "Good"
  else
    "Unknown"

/-- The `messages` pools of `_generate_green_message`, with the
`messages.get(grade, messages["C"])` default. -/
def green_messages (grade : String) : List String :=
  if grade = "A" then
    ["Excellent choice! This product supports sustainable practices.",
     "Great pick! This item has minimal environmental impact.",
     "Perfect! This product promotes a circular economy."]
  else if grade = "B" then
    ["Good choice! This product is more sustainable than average.",
     "Nice pick! Consider reusing or recycling when done.",
     "Well done! This item has better environmental credentials."]
  else if grade = "D" then
    ["Below average sustainability. Consider alternatives.",
     "Look for products with better environmental ratings.",
     "This item could have significant environmental impact."]
  else if grade = "E" then
    ["Poor sustainability rating. Strongly consider alternatives.",
     "This product may have high environmental impact.",
     "Look for eco-friendly alternatives to reduce your footprint."]
  else
    ["Average sustainability. Look for eco-friendly alternatives.",
     "Consider checking for more sustainable options.",
     "This product meets basic environmental standards."]

/-- `_generate_green_message`: `random.choice` over the pool for the grade
(the randomness source is the parameter `choice`). -/
def _generate_green_message (choice : List String → String)
    (_product_title grade : String) : String :=
  choice (green_messages grade)

/-- `_calculate_confidence`: base 0.5, keyword bonus capped at 0.4, word
count bonus 0.1, final cap 0.95. -/
def _calculate_confidence (product_title : String) : ℚ :=
  let title_lower := pyLower product_title
  let matching_keywords : ℕ := sustainability_keywords.foldl
    (fun acc p => p.2.foldl
      (fun a k => if strIn k title_lower then a + 1 else a) acc) 0
  let keyword_confidence : ℚ := min ((matching_keywords : ℚ) / 5) (4/10)
  let confidence : ℚ := 1/2 + keyword_confidence
    + (if 4 ≤ (pySplit product_title).length then 1/10 else 0)
  min confidence (95/100)

/-! ### Results, statistics and the scoring facade -/

/-- The composed result record returned by `score_product`. -/
structure ScoreResult where
  grade : String
  co2_impact : String
  recyclable : Bool
  renewable_materials : Bool
  packaging_score : String
  supply_chain_score : String
  green_message : String
  confidence : ℚ
  timestamp : String
deriving DecidableEq

/-- `_get_default_score`. -/
def _get_default_score (now : String) : ScoreResult :=
  { grade := "C"
    co2_impact := "Unknown"
    recyclable := false
    renewable_materials := false
    packaging_score := "Unknown"
    supply_chain_score := "Unknown"
    green_message := "Unable to assess sustainability. Please try again."
    confidence := 1/10
    timestamp := now }

/-- `self.stats["grade_distribution"]`. -/
structure GradeDistribution where
  gA : ℕ
  gB : ℕ
  gC : ℕ
  gD : ℕ
  gE : ℕ
deriving DecidableEq

/-- `self.stats["grade_distribution"][grade] += 1`; `none` is the
`KeyError` raised when `grade` is not one of the five keys. -/
def grade_distribution_incr (d : GradeDistribution) (grade : String) :
    Option GradeDistribution :=
  if grade = "A" then some { d with gA := d.gA + 1 }
  else if grade = "B" then some { d with gB := d.gB + 1 }
  else if grade = "C" then some { d with gC := d.gC + 1 }
  else if grade = "D" then some { d with gD := d.gD + 1 }
  else if grade = "E" then some { d with gE := d.gE + 1 }
  else none

/-- Sum of the per-grade counters. -/
def sumDist (d : GradeDistribution) : ℕ :=
  d.gA + d.gB + d.gC + d.gD + d.gE

/-- The mutable `self.stats` (without the `categories_processed` set, see
the file header). -/
structure Stats where
  total_predictions : ℕ
  grade_distribution : GradeDistribution
deriving DecidableEq

/-- The scorer: the (all-or-nothing) trained artifact and the statistics.
A fresh instance has no model and zeroed statistics. -/
structure SustainabilityScorer where
  model : Option (String → Except Unit String)
  stats : Stats

/-- `self.stats` of a fresh `SustainabilityScorer.__init__`. -/
def freshStats : Stats :=
  { total_predictions := 0, grade_distribution := ⟨0, 0, 0, 0, 0⟩ }

/-- Grader selection in `score_product`: the model pipeline when an
artifact is loaded, else the rule-based grader. -/
def gradeOf (model : Option (String → Except Unit String))
    (product_title : String) : String :=
  match model with
  | some artifact => _score_with_model artifact product_title
  | none => _score_with_rules product_title

/-- `score_product`: increments `total_predictions`, grades, increments the
per-grade counter, composes the enrichment signals; any exception escaping
a step is caught by the facade `try/except` and turned into
`_get_default_score` (mutations made before the failing step persist, as
they do in Python). -/
def score_product (choice : List String → String) (now : String)
    (self : SustainabilityScorer) (product_title : String) :
    SustainabilityScorer × ScoreResult :=
  match grade_distribution_incr self.stats.grade_distribution
      (gradeOf self.model product_title) with
  | none =>
    ({ model := self.model
       stats := { total_predictions := self.stats.total_predictions + 1
                  grade_distribution := self.stats.grade_distribution } },
     _get_default_score now)
  | some d2 =>
    match _estimate_co2_impact product_title
        (gradeOf self.model product_title) with
    | none =>
      ({ model := self.model
         stats := { total_predictions := self.stats.total_predictions + 1
                    grade_distribution := d2 } },
       _get_default_score now)
    | some co2 =>
      ({ model := self.model
         stats := { total_predictions := self.stats.total_predictions + 1
                    grade_distribution := d2 } },
        { grade := gradeOf self.model product_title
          co2_impact := co2
          recyclable := _assess_recyclability product_title
          renewable_materials := _assess_renewable_materials product_title
          packaging_score := _assess_packaging product_title
          supply_chain_score := _assess_supply_chain product_title
          green_message := _generate_green_message choice product_title
            (gradeOf self.model product_title)
          confidence := _calculate_confidence product_title
          timestamp := now })

/-- A sequence of `score_product` calls against one scorer instance. -/
def runCalls (choice : List String → String) (now : String)
    (self : SustainabilityScorer) (titles : List String) :
    SustainabilityScorer :=
  titles.foldl (fun sc t => (score_product choice now sc t).1) self

/-- The five valid grade letters. -/
def validGrades : List String :=
  ["A", "B", "C", "D", "E"]

/-! ### Spec-side definitions

These definitions are written from the words of the claims (never from the
source), for the refinement claims that describe an algorithm; each is
compared with the corresponding source translation above. -/

/-- Written from claim C1: the fixed rule multiplier of the detected
category, with `other` leaving the score unchanged (factor 1). -/
def rule_multiplier_spec (category : String) : ℚ :=
  if category = "electronics" then 8/10
  else if category = "clothing" then 9/10
  else if category = "food" then 11/10
  else if category = "home" then 1
  else if category = "beauty" then 95/100
  else if category = "toys" then 85/100
  else if category = "books" then 105/100
  else if category = "automotive" then 7/10
  else if category = "garden" then 12/10
  else if category = "health" then 1
  else 1

/-- Number of keywords of a tier list that are substrings of the
lower-cased title (boolean containment, once per keyword). -/
def keywordHitCount (kws : List String) (title_lower : String) : ℕ :=
  (kws.filter (fun k => strIn k title_lower)).length

/-- Written from claim C1: base 50, plus each tier delta once per matched
keyword, times the category multiplier, mapped through the inclusive
lower-bound thresholds. -/
def rule_grade_spec (product_title : String) : String :=
  let tl := pyLower product_title
  let score : ℤ := 50 + 20 * (keywordHitCount excellent_keywords tl : ℤ)
    + 10 * (keywordHitCount good_keywords tl : ℤ)
    + 0 * (keywordHitCount average_keywords tl : ℤ)
    + -10 * (keywordHitCount poor_keywords tl : ℤ)
    + -20 * (keywordHitCount very_poor_keywords tl : ℤ)
  let final : ℚ := (score : ℚ) * rule_multiplier_spec (_detect_category tl)
  if final ≥ 80 then "A"
  else if final ≥ 65 then "B"
  else if final ≥ 45 then "C"
  else if final ≥ 30 then "D"
  else "E"

/-- Written from claim C6 (as amended): the per-grade base CO2 value. -/
def co2_base_spec (grade : String) : Option ℚ :=
  if grade = "A" then some (toDouble (12/10))
  else if grade = "B" then some (toDouble (5/2))
  else if grade = "C" then some (toDouble (24/5))
  else if grade = "D" then some (toDouble (81/10))
  else if grade = "E" then some (toDouble (25/2))
  else none

/-- Written from claim C6 (as amended): the per-category CO2 multiplier,
with `other` and unlisted categories mapping to 1.0. -/
def co2_mult_spec (category : String) : ℚ :=
  if category = "electronics" then toDouble 3
  else if category = "automotive" then toDouble 5
  else if category = "clothing" then toDouble (3/2)
  else if category = "food" then toDouble (8/10)
  else if category = "home" then toDouble 2
  else if category = "beauty" then toDouble (12/10)
  else if category = "toys" then toDouble (18/10)
  else if category = "books" then toDouble (5/10)
  else if category = "garden" then toDouble (9/10)
  else if category = "health" then toDouble (11/10)
  else toDouble 1

/-- Written from claim C6 (as amended): base times category multiplier,
rendered to one decimal place, followed by the literal unit suffix the
source writes (" kg CO" U+00E2 U+201A U+201A). -/
def co2_spec (product_title grade : String) : Option String :=
  (co2_base_spec grade).map (fun b =>
    fmt1 (pyMul b (co2_mult_spec (_detect_category (pyLower product_title))))
      ++ " kg COâ‚‚")

/-- Written from claim C7 (as amended): lower-case the title and delete
every character that is neither a Latin letter nor whitespace; whitespace
is kept verbatim (never collapsed), so a whitespace-only title comes back
unchanged. -/
def normalize_spec (product_title : String) : String :=
  String.mk ((pyLower product_title).toList.filter
    (fun c => c.isAlpha || isPySpace c))

/-- The number of keywords, over all tiers, that are substrings of the
lower-cased title (the `matching_keywords` counter of
`_calculate_confidence`). -/
def matchingKeywordCount (product_title : String) : ℕ :=
  sustainability_keywords.foldl
    (fun acc p => p.2.foldl
      (fun a k => if strIn k (pyLower product_title) then a + 1 else a) acc) 0

/-! ### Substring infrastructure lemmas -/

theorem headMatch_iff (n : List Char) : ∀ h : List Char,
    headMatch n h = true ↔ ∃ t, h = n ++ t := by
  induction n with
  | nil =>
    intro h
    simp [headMatch]
  | cons a as ih =>
    intro h
    cases h with
    | nil =>
      simp [headMatch]
    | cons b bs =>
      simp only [headMatch, Bool.and_eq_true, beq_iff_eq, ih, List.cons_append,
        List.cons.injEq]
      constructor
      · rintro ⟨hab, t, ht⟩
        exact ⟨t, hab.symm, ht⟩
      · rintro ⟨t, hab, ht⟩
        exact ⟨hab.symm, t, ht⟩

theorem subOccurs_iff (n : List Char) : ∀ h : List Char,
    subOccurs n h = true ↔ ∃ l t, h = l ++ n ++ t := by
  intro h
  induction h with
  | nil =>
    simp only [subOccurs, headMatch_iff]
    constructor
    · rintro ⟨t, ht⟩
      exact ⟨[], t, by simp [ht]⟩
    · rintro ⟨l, t, hlt⟩
      refine ⟨t, ?_⟩
      rcases List.append_eq_nil.mp ((List.append_assoc l n t ▸ hlt).symm) with ⟨h1, h2⟩
      rcases List.append_eq_nil.mp h2 with ⟨h3, h4⟩
      simp [h3, h4]
  | cons c cs ih =>
    simp only [subOccurs, Bool.or_eq_true, headMatch_iff, ih]
    constructor
    · rintro (⟨t, ht⟩ | ⟨l, t, hlt⟩)
      · exact ⟨[], t, by simp [ht]⟩
      · exact ⟨c :: l, t, by simp [hlt]⟩
    · rintro ⟨l, t, hlt⟩
      cases l with
      | nil =>
        exact Or.inl ⟨t, by simpa using hlt⟩
      | cons x xs =>
        simp only [List.cons_append, List.cons.injEq] at hlt
        exact Or.inr ⟨xs, t, hlt.2⟩

theorem strIn_trans (n m h : String) (h1 : strIn n m = true)
    (h2 : strIn m h = true) : strIn n h = true := by
  unfold strIn at *
  rw [subOccurs_iff] at *
  obtain ⟨l1, t1, he1⟩ := h1
  obtain ⟨l2, t2, he2⟩ := h2
  refine ⟨l2 ++ l1, t1 ++ t2, ?_⟩
  show h.toList = (l2 ++ l1) ++ n.toList ++ (t1 ++ t2)
  rw [he2, he1]
  simp [List.append_assoc]

/-! ### Character lemmas -/

theorem toNat_ofNat_of_valid (n : ℕ) (hv : n.isValidChar) :
    (Char.ofNat n).toNat = n := by
  rw [Char.ofNat, dif_pos hv]
  rfl

theorem toLower_toLower (c : Char) :
    Char.toLower (Char.toLower c) = Char.toLower c := by
  show Char.toLower (if c.toNat ≥ 65 ∧ c.toNat ≤ 90 then Char.ofNat (c.toNat + 32) else c)
    = if c.toNat ≥ 65 ∧ c.toNat ≤ 90 then Char.ofNat (c.toNat + 32) else c
  by_cases h : c.toNat ≥ 65 ∧ c.toNat ≤ 90
  · rw [if_pos h]
    have hv : (c.toNat + 32).isValidChar := Or.inl (by omega)
    have ht : (Char.ofNat (c.toNat + 32)).toNat = c.toNat + 32 :=
      toNat_ofNat_of_valid _ hv
    show (if (Char.ofNat (c.toNat + 32)).toNat ≥ 65 ∧ (Char.ofNat (c.toNat + 32)).toNat ≤ 90
        then Char.ofNat ((Char.ofNat (c.toNat + 32)).toNat + 32)
        else Char.ofNat (c.toNat + 32)) = Char.ofNat (c.toNat + 32)
    rw [if_neg]
    rw [ht]
    omega
  · rw [if_neg h]
    show (if c.toNat ≥ 65 ∧ c.toNat ≤ 90 then Char.ofNat (c.toNat + 32) else c) = c
    rw [if_neg h]

theorem toLower_of_pySpace (c : Char) (h : isPySpace c = true) :
    Char.toLower c = c := by
  have hm : c ∈ pySpaceChars := by
    unfold isPySpace at h
    exact List.elem_iff.mp h
  fin_cases hm <;> decide

/-! ### Fold counting lemmas -/

theorem foldl_delta (d : ℤ) (p : String → Bool) (kws : List String) :
    ∀ a : ℤ, kws.foldl (fun acc k => if p k then acc + d else acc) a
      = a + d * ((kws.filter p).length : ℤ) := by
  induction kws with
  | nil =>
    intro a
    simp
  | cons k t ih =>
    intro a
    by_cases h : p k
    · simp only [List.foldl_cons, List.filter_cons, h, if_pos, ih, List.length_cons]
      push_cast
      ring
    · simp only [List.foldl_cons, List.filter_cons, h, ih]
      simp [h]

theorem foldl_count (p : String → Bool) (kws : List String) :
    ∀ a : ℕ, kws.foldl (fun acc k => if p k then acc + 1 else acc) a
      = a + (kws.filter p).length := by
  induction kws with
  | nil =>
    intro a
    simp
  | cons k t ih =>
    intro a
    by_cases h : p k
    · simp only [List.foldl_cons, List.filter_cons, h, if_pos, ih, List.length_cons]
      omega
    · simp only [List.foldl_cons, List.filter_cons, h, ih]
      simp [h]

theorem countP_add_countP_not (p q : String → Bool)
    (hq : ∀ a, q a = !p a) (l : List String) :
    l.countP p + l.countP q = l.length := by
  induction l with
  | nil => simp
  | cons x xs ih =>
    rw [List.countP_cons, List.countP_cons, hq x]
    by_cases h : p x <;> simp [h] <;> omega

/-! ### Category detection lemmas -/

theorem detect_category_mem (title_lower : String) :
    _detect_category title_lower ∈
      ["electronics", "clothing", "food", "home", "beauty", "toys", "books",
       "automotive", "garden", "health", "other"] := by
  unfold _detect_category
  rcases hf : category_keywords.find?
      (fun p => p.2.any (fun k => strIn k title_lower)) with _ | p
  · rw [hf]
    simp
  · have hp := List.mem_of_find?_eq_some hf
    unfold category_keywords at hp
    simp only [List.mem_cons, List.not_mem_nil, or_false] at hp
    rcases hp with h | h | h | h | h | h | h | h | h | h <;> subst h <;> rw [hf] <;> simp

/-! ### Statistics lemmas -/

theorem grade_distribution_incr_none (d : GradeDistribution) (g : String) :
    grade_distribution_incr d g = none ↔ g ∉ validGrades := by
  unfold grade_distribution_incr validGrades
  split_ifs with h1 h2 h3 h4 h5 <;> simp_all

theorem sumDist_incr (d d2 : GradeDistribution) (g : String)
    (h : grade_distribution_incr d g = some d2) :
    sumDist d2 = sumDist d + 1 := by
  unfold grade_distribution_incr at h
  split_ifs at h <;> injection h with h2 <;> subst h2 <;> simp [sumDist] <;> omega

theorem score_product_step (choice : List String → String) (now : String)
    (self : SustainabilityScorer) (t : String) :
    (score_product choice now self t).1.model = self.model ∧
    (score_product choice now self t).1.stats.total_predictions
      = self.stats.total_predictions + 1 ∧
    sumDist (score_product choice now self t).1.stats.grade_distribution
      = sumDist self.stats.grade_distribution
        + (if gradeOf self.model t ∈ validGrades then 1 else 0) := by
  unfold score_product
  cases hg : grade_distribution_incr self.stats.grade_distribution
      (gradeOf self.model t) with
  | none =>
    refine ⟨rfl, rfl, ?_⟩
    rw [grade_distribution_incr_none] at hg
    simp [hg]
  | some d2 =>
    have hv : gradeOf self.model t ∈ validGrades := by
      by_contra hc
      rw [← grade_distribution_incr_none self.stats.grade_distribution] at hc
      rw [hc] at hg
      cases hg
    cases _estimate_co2_impact t (gradeOf self.model t) with
    | none =>
      refine ⟨rfl, rfl, ?_⟩
      rw [if_pos hv]
      exact sumDist_incr _ _ _ hg
    | some co2 =>
      refine ⟨rfl, rfl, ?_⟩
      rw [if_pos hv]
      exact sumDist_incr _ _ _ hg

theorem runCalls_stats (choice : List String → String) (now : String)
    (model : Option (String → Except Unit String)) (titles : List String) :
    ∀ st : Stats,
    (runCalls choice now ⟨model, st⟩ titles).model = model ∧
    (runCalls choice now ⟨model, st⟩ titles).stats.total_predictions
      = st.total_predictions + titles.length ∧
    sumDist (runCalls choice now ⟨model, st⟩ titles).stats.grade_distribution
      = sumDist st.grade_distribution
        + titles.countP (fun t => decide (gradeOf model t ∈ validGrades)) := by
  induction titles with
  | nil =>
    intro st
    simp [runCalls]
  | cons t ts ih =>
    intro st
    obtain ⟨hm, htot, hsum⟩ := score_product_step choice now ⟨model, st⟩ t
    dsimp only at hm htot hsum
    have hsc : (score_product choice now ⟨model, st⟩ t).1
        = ⟨model, (score_product choice now ⟨model, st⟩ t).1.stats⟩ := by
      calc (score_product choice now ⟨model, st⟩ t).1
          = ⟨(score_product choice now ⟨model, st⟩ t).1.model,
             (score_product choice now ⟨model, st⟩ t).1.stats⟩ := rfl
        _ = ⟨model, (score_product choice now ⟨model, st⟩ t).1.stats⟩ := by rw [hm]
    obtain ⟨ihm, ihtot, ihsum⟩ := ih (score_product choice now ⟨model, st⟩ t).1.stats
    have hrun : runCalls choice now ⟨model, st⟩ (t :: ts)
        = runCalls choice now
            ⟨model, (score_product choice now ⟨model, st⟩ t).1.stats⟩ ts := by
      unfold runCalls
      rw [List.foldl_cons, ← hsc]
    refine ⟨?_, ?_, ?_⟩
    · rw [hrun]
      exact ihm
    · rw [hrun, ihtot, htot, List.length_cons]
      omega
    · rw [hrun, ihsum, hsum, List.countP_cons]
      by_cases hv : gradeOf model t ∈ validGrades
      · simp [hv]
        omega
      · simp [hv]

/-! ### Claim theorems -/

/-- C1: for every title, the rule-based grader computes a score starting at
base 50, adds each matched tier's fixed delta (+20 excellent, +10 good,
0 average, -10 poor, -20 very_poor) once per keyword whose string is a
substring of the lower-cased title (boolean containment), multiplies the
accumulated score by the detected category's fixed multiplier (`other`
leaving the score unchanged), and maps the result to a grade by inclusive
lower-bound thresholds 80/65/45/30. -/
theorem c1_rule_grader_follows_spec (product_title : String) :
    _score_with_rules product_title = rule_grade_spec product_title := by
  have hm : ∀ z : ℚ,
      (match category_multipliers.lookup (_detect_category (pyLower product_title)) with
        | some m => z * m
        | none => z)
      = z * rule_multiplier_spec (_detect_category (pyLower product_title)) := by
    intro z
    have hmem := detect_category_mem (pyLower product_title)
    simp only [List.mem_cons, List.not_mem_nil, or_false] at hmem
    rcases hmem with h | h | h | h | h | h | h | h | h | h | h <;> rw [h]
    · rfl
    · rfl
    · rfl
    · rfl
    · rfl
    · rfl
    · rfl
    · rfl
    · rfl
    · rfl
    · rw [show category_multipliers.lookup "other" = (none : Option ℚ) from rfl,
          show rule_multiplier_spec "other" = 1 from rfl, mul_one]
  simp only [_score_with_rules, rule_grade_spec, sustainability_keywords,
    keywordHitCount, List.foldl_cons, List.foldl_nil]
  rw [foldl_delta, foldl_delta, foldl_delta, foldl_delta, foldl_delta]
  rw [show tierDelta "excellent" = 20 from rfl, show tierDelta "good" = 10 from rfl,
      show tierDelta "average" = 0 from rfl, show tierDelta "poor" = -10 from rfl,
      show tierDelta "very_poor" = -20 from rfl]
  rw [hm]

/-- C2: `score_product` never raises past its boundary: for every title the
call returns a result, which is either the successful composed record
(whose grade is the grader's output) or the fixed default; whenever the
pipeline fails (the only failure reachable from a string title being a
`KeyError` on the grade-distribution update for an invalid model-produced
grade), the result is exactly the fixed default with grade "C", co2_impact
"Unknown", recyclable false, renewable_materials false, packaging_score
"Unknown", supply_chain_score "Unknown", the fixed apology message, and
confidence 0.1. -/
theorem c2_facade_never_raises (choice : List String → String) (now : String)
    (self : SustainabilityScorer) (product_title : String) :
    _get_default_score now =
      { grade := "C", co2_impact := "Unknown", recyclable := false,
        renewable_materials := false, packaging_score := "Unknown",
        supply_chain_score := "Unknown",
        green_message := "Unable to assess sustainability. Please try again.",
        confidence := 1/10, timestamp := now } ∧
    ((score_product choice now self product_title).2 = _get_default_score now ∨
      (score_product choice now self product_title).2.grade
        = gradeOf self.model product_title) ∧
    (gradeOf self.model product_title ∉ validGrades →
      (score_product choice now self product_title).2 = _get_default_score now) := by
  refine ⟨rfl, ?_, ?_⟩
  · unfold score_product
    cases grade_distribution_incr self.stats.grade_distribution
        (gradeOf self.model product_title) with
    | none => exact Or.inl rfl
    | some d2 =>
      cases _estimate_co2_impact product_title (gradeOf self.model product_title) with
      | none => exact Or.inl rfl
      | some co2 => exact Or.inr rfl
  · intro h
    have hnone : grade_distribution_incr self.stats.grade_distribution
        (gradeOf self.model product_title) = none :=
      (grade_distribution_incr_none _ _).mpr h
    unfold score_product
    rw [hnone]

/-- Witness for C2: a loaded artifact that decodes to the invalid label "F"
makes the pipeline raise, and the call returns the fixed default result. -/
theorem c2_witness :
    (score_product (fun l => l.headD "") "t0"
        ⟨some (fun _ => Except.ok "F"), freshStats⟩ "Bamboo Cup").2
      = _get_default_score "t0" :=
  (c2_facade_never_raises (fun l => l.headD "") "t0"
    ⟨some (fun _ => Except.ok "F"), freshStats⟩ "Bamboo Cup").2.2 (by decide)

/-- C3: category detection scans the table in declaration order
(electronics first), so any title matching both an electronics keyword and
a clothing keyword resolves to electronics, and a title matching no
category keyword resolves to "other". -/
theorem c3_detect_category_order (title_lower : String) :
    ((∃ k ∈ electronics_keywords, strIn k title_lower = true) →
      (∃ k ∈ clothing_keywords, strIn k title_lower = true) →
      _detect_category title_lower = "electronics") ∧
    ((∀ p ∈ category_keywords, ∀ k ∈ p.2, strIn k title_lower = false) →
      _detect_category title_lower = "other") := by
  constructor
  · intro h1 _h2
    unfold _detect_category category_keywords
    rw [List.find?_cons_of_pos]
    obtain ⟨k, hk, hin⟩ := h1
    exact List.any_eq_true.mpr ⟨k, hk, hin⟩
  · intro h
    unfold _detect_category
    rw [List.find?_eq_none.mpr]
    intro p hp
    simp only [Bool.not_eq_true, List.any_eq_false]
    intro k hk
    exact h p hp k hk

/-- Witness for C3: "phone shirt" matches electronics ("phone") and
clothing ("shirt") and detects as electronics; "qqq" matches nothing and
detects as "other". -/
theorem c3_witness :
    _detect_category "phone shirt" = "electronics" ∧
    _detect_category "qqq" = "other" :=
  ⟨(c3_detect_category_order "phone shirt").1 (by decide) (by decide),
   (c3_detect_category_order "qqq").2 (by decide)⟩

/-- C4: the confidence is 0.5 plus min(matching keyword count / 5, 0.4)
plus 0.1 for titles of at least 4 whitespace-delimited words, capped at
0.95; it always lies in [0.05, 0.95], and the error-path default
confidence 0.1 lies in the same interval. -/
theorem c4_confidence_bounds (now : String) (product_title : String) :
    ((0.05 : ℚ) ≤ _calculate_confidence product_title ∧
      _calculate_confidence product_title ≤ (0.95 : ℚ)) ∧
    _calculate_confidence product_title
      = min ((1 : ℚ)/2 + min ((matchingKeywordCount product_title : ℚ)/5) (4/10)
          + (if 4 ≤ (pySplit product_title).length then (1 : ℚ)/10 else 0))
          (95/100) ∧
    ((_get_default_score now).confidence = 1/10 ∧
      (0.05 : ℚ) ≤ (_get_default_score now).confidence ∧
      (_get_default_score now).confidence ≤ (0.95 : ℚ)) := by
  refine ⟨?_, rfl, rfl, by norm_num [_get_default_score], by norm_num [_get_default_score]⟩
  have hform : _calculate_confidence product_title
      = min ((1 : ℚ)/2 + min ((matchingKeywordCount product_title : ℚ)/5) (4/10)
          + (if 4 ≤ (pySplit product_title).length then (1 : ℚ)/10 else 0))
          (95/100) := rfl
  rw [hform]
  constructor
  · have h0 : (0 : ℚ) ≤ min ((matchingKeywordCount product_title : ℚ)/5) (4/10) :=
      le_min (by positivity) (by norm_num)
    have h1 : (0 : ℚ) ≤ (if 4 ≤ (pySplit product_title).length then (1 : ℚ)/10 else 0) := by
      split <;> norm_num
    apply le_min <;> [linarith; norm_num]
  · exact le_trans (min_le_right _ _) (by norm_num)

/-- C5: when the artifact pipeline raises on a title, `_score_with_model`
returns the rule-based grade for that title instead of propagating, and a
`score_product` call never changes the selected model. -/
theorem c5_model_fallback (artifact : String → Except Unit String)
    (choice : List String → String) (now : String)
    (self : SustainabilityScorer) (product_title : String) :
    (artifact (prepare_features product_title) = Except.error () →
      _score_with_model artifact product_title
        = _score_with_rules product_title) ∧
    (score_product choice now self product_title).1.model = self.model := by
  constructor
  · intro h
    unfold _score_with_model
    rw [h]
  · exact (score_product_step choice now self product_title).1

/-- Witness for C5: an always-failing artifact falls back to the rules and
the model field survives the call. -/
theorem c5_witness :
    _score_with_model (fun _ => Except.error ()) "Organic tea"
      = _score_with_rules "Organic tea" ∧
    (score_product (fun l => l.headD "") "t0"
        ⟨some (fun _ => Except.error ()), freshStats⟩ "Organic tea").1.model
      = some (fun _ => Except.error ()) :=
  ⟨(c5_model_fallback (fun _ => Except.error ()) (fun l => l.headD "") "t0"
      ⟨some (fun _ => Except.error ()), freshStats⟩ "Organic tea").1 rfl,
   (c5_model_fallback (fun _ => Except.error ()) (fun l => l.headD "") "t0"
      ⟨some (fun _ => Except.error ()), freshStats⟩ "Organic tea").2⟩

set_option maxRecDepth 100000 in
/-- Counterexample for C6: at the concrete input (title "", grade "C") the
source renders "4.8 kg CO" U+00E2 U+201A U+201A, not the claimed wire
format "4.8 kg". -/
theorem c6_counterexample :
    _estimate_co2_impact "" "C" = some ("4.8" ++ co2Unit) ∧
    _estimate_co2_impact "" "C" ≠ some "4.8 kg" := by
  have hdet : _detect_category (pyLower "") = "other" := by decide
  have hfmt : fmt1 (pyMul (toDouble (24/5)) (toDouble 1)) = "4.8" := by
    with_unfolding_all decide
  have h2 : _estimate_co2_impact "" "C"
      = some (fmt1 (pyMul (toDouble (24/5))
          ((co2_category_multipliers.lookup (_detect_category (pyLower ""))).getD
            (toDouble 1))) ++ co2Unit) := rfl
  rw [h2, hdet,
    show (co2_category_multipliers.lookup "other").getD (toDouble 1) = toDouble 1
      from rfl,
    hfmt]
  exact ⟨rfl, by decide⟩

/-- C6 as amended: for every title and valid grade, the CO2 estimate is the
grade's binary64 base value times the detected category's binary64 CO2
multiplier (other/unlisted giving 1.0), rendered to one decimal place and
suffixed with the literal " kg CO" U+00E2 U+201A U+201A unit string. -/
theorem c6_co2_amended (product_title grade : String)
    (h : grade ∈ validGrades) :
    _estimate_co2_impact product_title grade = co2_spec product_title grade := by
  have hm : (co2_category_multipliers.lookup
        (_detect_category (pyLower product_title))).getD (toDouble 1)
      = co2_mult_spec (_detect_category (pyLower product_title)) := by
    have hmem := detect_category_mem (pyLower product_title)
    simp only [List.mem_cons, List.not_mem_nil, or_false] at hmem
    rcases hmem with hc | hc | hc | hc | hc | hc | hc | hc | hc | hc | hc <;>
      rw [hc] <;> rfl
  simp only [validGrades, List.mem_cons, List.not_mem_nil, or_false] at h
  rcases h with hg | hg | hg | hg | hg <;> subst hg
  · rw [show _estimate_co2_impact product_title "A"
        = some (fmt1 (pyMul (toDouble (12/10))
            ((co2_category_multipliers.lookup
              (_detect_category (pyLower product_title))).getD (toDouble 1)))
          ++ co2Unit) from rfl, hm]
    rfl
  · rw [show _estimate_co2_impact product_title "B"
        = some (fmt1 (pyMul (toDouble (5/2))
            ((co2_category_multipliers.lookup
              (_detect_category (pyLower product_title))).getD (toDouble 1)))
          ++ co2Unit) from rfl, hm]
    rfl
  · rw [show _estimate_co2_impact product_title "C"
        = some (fmt1 (pyMul (toDouble (24/5))
            ((co2_category_multipliers.lookup
              (_detect_category (pyLower product_title))).getD (toDouble 1)))
          ++ co2Unit) from rfl, hm]
    rfl
  · rw [show _estimate_co2_impact product_title "D"
        = some (fmt1 (pyMul (toDouble (81/10))
            ((co2_category_multipliers.lookup
              (_detect_category (pyLower product_title))).getD (toDouble 1)))
          ++ co2Unit) from rfl, hm]
    rfl
  · rw [show _estimate_co2_impact product_title "E"
        = some (fmt1 (pyMul (toDouble (25/2))
            ((co2_category_multipliers.lookup
              (_detect_category (pyLower product_title))).getD (toDouble 1)))
          ++ co2Unit) from rfl, hm]
    rfl

/-- Witness for C6 (amended): the equality evaluated at the concrete input
(title "phone", grade "D"). -/
theorem c6_witness :
    _estimate_co2_impact "phone" "D" = co2_spec "phone" "D" :=
  c6_co2_amended "phone" "D" (by decide)

/-- Counterexample for C7: the normalization does not collapse whitespace
and does not map whitespace-only input to the empty string. -/
theorem c7_counterexample :
    prepare_features " " ≠ "" ∧ prepare_features "a  b" ≠ "a b" := by
  constructor
  · decide
  · decide

/-- C7 as amended: the normalization lower-cases the title and strips every
character outside the Latin alphabet and whitespace, keeping whitespace
verbatim (no collapsing); consequently a whitespace-only title (including
the empty title) is returned unchanged. -/
theorem c7_normalize_amended (product_title : String) :
    prepare_features product_title = normalize_spec product_title ∧
    ((∀ c ∈ product_title.toList, isPySpace c = true) →
      prepare_features product_title = product_title) := by
  constructor
  · rfl
  · intro h
    unfold prepare_features
    have hid : ∀ c ∈ product_title.toList, Char.toLower c = id c :=
      fun c hc => toLower_of_pySpace c (h c hc)
    have hmap : product_title.toList.map Char.toLower = product_title.toList := by
      rw [List.map_congr_left hid, List.map_id]
    have hfil : product_title.toList.filter (fun c => c.isAlpha || isPySpace c)
        = product_title.toList :=
      List.filter_eq_self.mpr (fun c hc => by simp [h c hc])
    rw [hmap, hfil]
    rfl

/-- Witness for C7 (amended): a whitespace-only title comes back
unchanged. -/
theorem c7_witness : prepare_features "  " = "  " :=
  (c7_normalize_amended "  ").2 (by decide)

/-- C8: the feature-extraction normalization is idempotent (and total, it
being a total function of this development). -/
theorem c8_normalize_idempotent (s : String) :
    prepare_features (prepare_features s) = prepare_features s := by
  unfold prepare_features
  show String.mk ((((s.toList.map Char.toLower).filter
      (fun c => c.isAlpha || isPySpace c)).map Char.toLower).filter
      (fun c => c.isAlpha || isPySpace c))
    = String.mk ((s.toList.map Char.toLower).filter
      (fun c => c.isAlpha || isPySpace c))
  have hmem : ∀ c ∈ (s.toList.map Char.toLower).filter
      (fun c => c.isAlpha || isPySpace c), Char.toLower c = id c := by
    intro c hc
    rw [List.mem_filter] at hc
    obtain ⟨hcm, -⟩ := hc
    rw [List.mem_map] at hcm
    obtain ⟨c0, -, hc0⟩ := hcm
    rw [← hc0]
    exact toLower_toLower c0
  have hmap : ((s.toList.map Char.toLower).filter
        (fun c => c.isAlpha || isPySpace c)).map Char.toLower
      = (s.toList.map Char.toLower).filter (fun c => c.isAlpha || isPySpace c) := by
    rw [List.map_congr_left hmem, List.map_id]
  rw [hmap]
  have hfil : ((s.toList.map Char.toLower).filter
        (fun c => c.isAlpha || isPySpace c)).filter
        (fun c => c.isAlpha || isPySpace c)
      = (s.toList.map Char.toLower).filter (fun c => c.isAlpha || isPySpace c) :=
    List.filter_eq_self.mpr (fun c hc => (List.mem_filter.mp hc).2)
  rw [hfil]

/-- C9: any title whose lower-cased form contains "non-recyclable" is
assessed recyclable, because the recyclable-keyword pass runs first and
"recyclable" matches inside "non-recyclable". -/
theorem c9_non_recyclable_assessed_recyclable (product_title : String)
    (h : strIn "non-recyclable" (pyLower product_title) = true) :
    _assess_recyclability product_title = true := by
  have hr : strIn "recyclable" (pyLower product_title) = true :=
    strIn_trans "recyclable" "non-recyclable" (pyLower product_title) (by decide) h
  have hany : recyclable_keywords.any
      (fun k => strIn k (pyLower product_title)) = true :=
    List.any_eq_true.mpr ⟨"recyclable", by decide, hr⟩
  simp [_assess_recyclability, hany]

/-- Witness for C9 at a concrete title. -/
theorem c9_witness :
    strIn "non-recyclable" (pyLower "Non-Recyclable foam tray") = true ∧
    _assess_recyclability "Non-Recyclable foam tray" = true :=
  ⟨by decide,
   c9_non_recyclable_assessed_recyclable "Non-Recyclable foam tray" (by decide)⟩

/-- C10: after any sequence of `score_product` calls on a fresh scorer (any
artifact), the per-grade counters sum to at most `total_predictions`:
every call adds one to the total, a call adds one to a grade counter
exactly when grading succeeded with a valid grade, and each error-path
call widens the gap by one. -/
theorem c10_grade_distribution_bounded (choice : List String → String)
    (now : String) (model : Option (String → Except Unit String))
    (titles : List String) :
    sumDist (runCalls choice now ⟨model, freshStats⟩ titles).stats.grade_distribution
      ≤ (runCalls choice now ⟨model, freshStats⟩ titles).stats.total_predictions ∧
    (runCalls choice now ⟨model, freshStats⟩ titles).stats.total_predictions
      = titles.length ∧
    sumDist (runCalls choice now ⟨model, freshStats⟩ titles).stats.grade_distribution
      + titles.countP (fun t => !decide (gradeOf model t ∈ validGrades))
      = (runCalls choice now ⟨model, freshStats⟩ titles).stats.total_predictions := by
  obtain ⟨-, htot, hsum⟩ := runCalls_stats choice now model titles freshStats
  have h0 : sumDist freshStats.grade_distribution = 0 := rfl
  have h1 : freshStats.total_predictions = 0 := rfl
  rw [h0] at hsum
  rw [h1] at htot
  have hcount := countP_add_countP_not
    (fun t => decide (gradeOf model t ∈ validGrades))
    (fun t => !decide (gradeOf model t ∈ validGrades))
    (fun a => rfl) titles
  refine ⟨?_, ?_, ?_⟩ <;> omega

end EcoTide
